import Mathlib

/-!
Verification of the routing client and process supervisor of the Outline
electron client.

The development shallowly embeds two source files:

* `src/electron/routing.ts` — the `RoutingService` class: the guard in
  `start`, and the handlers registered in `getSocket` (the `data` handler,
  modelled by `onData`, and the `close` handler, modelled by `deliverClose`).
  Handlers are modelled as pure functions from the client's mutable fields
  (modelled by `ClientState` / `SocketState`) and the incoming message to the
  ordered list of observable effects they perform (console logging, invoking
  the stored promise callbacks, ending the socket).

* `src/electron/processes.ts` — the `SingletonProcess` class's `onExit`
  handler (modelled by `deliverProcEvent`), and the argument-construction
  code of `SsLocal.start` and `Tun2socks.start` (modelled by `ssLocalArgs`
  and `tun2socksArgs`, with the module-level `isLinux` platform constant
  turned into an explicit parameter).

JavaScript promise semantics are modelled where a claim needs them: invoking
a stored `reject` callback is a synchronous effect inside the handler, but
the rejection reaches awaiting code only in a microtask after the handler's
synchronous run completes (`dataEventTrace`).
-/

namespace RoutingTs

/-- The `RoutingServiceAction` enum value `CONFIGURE_ROUTING`. -/
def CONFIGURE_ROUTING : String := "configureRouting"

/-- The `RoutingServiceAction` enum value `RESET_ROUTING`. -/
def RESET_ROUTING : String := "resetRouting"

/-- The `RoutingServiceAction` enum value `STATUS_CHANGED`. -/
def STATUS_CHANGED : String := "statusChanged"

/-- The `RoutingServiceStatusCode` enum value `SUCCESS`. -/
def SUCCESS : Int := 0

/-- The `RoutingServiceStatusCode` enum value `GENERIC_FAILURE`. -/
def GENERIC_FAILURE : Int := 1

/-- The `RoutingServiceStatusCode` enum value `UNSUPPORTED_ROUTING_TABLE`. -/
def UNSUPPORTED_ROUTING_TABLE : Int := 2

/-- A parsed message from the routing service (`RoutingServiceResponse` in
the source). The `action` tag is kept as a string, as in the wire format;
`statusCode` is an arbitrary integer since it comes from parsed JSON. -/
structure RoutingServiceResponse where
  action : String
  statusCode : Int
  errorMessage : Option String
deriving DecidableEq

/-- The two error values the configure path can reject with
(`errors.UnsupportedRoutingTable` and `errors.ConfigureSystemProxyFailure`),
each carrying the optional service-supplied error message. -/
inductive RoutingError where
  | unsupportedRoutingTable (errorMessage : Option String)
  | configureSystemProxyFailure (errorMessage : Option String)
deriving DecidableEq

/-- The observable effects the `data` handler can perform, in program
order: console logging, invoking the stored promise callbacks
(`fulfillStart` / `rejectStart` / `fulfillStop`), and `newSocket.end()`. -/
inductive Effect where
  | logReceived
  | logError (msg : String)
  | fulfillStart
  | rejectStart (e : RoutingError)
  | fulfillStop
  | socketEnd
deriving DecidableEq

/-- The mutable fields of a `RoutingService` instance that the handlers
read: whether `this.socket` is set, and whether each stored callback field
(`fulfillStart`, `rejectStart`, `fulfillStop`, `disconnectionListener`) is
set. In the source these fields hold closures or `undefined`; only their
truthiness is branched on, so booleans suffice. -/
structure ClientState where
  socketPresent : Bool
  fulfillStartSet : Bool
  rejectStartSet : Bool
  fulfillStopSet : Bool
  disconnectionListenerSet : Bool
deriving DecidableEq

/-- The ternary choosing the rejection error in the configure branch:
`statusCode === UNSUPPORTED_ROUTING_TABLE ? new UnsupportedRoutingTable(msg)
: new ConfigureSystemProxyFailure(msg)`. -/
def rejectErrorOf (r : RoutingServiceResponse) : RoutingError :=
  if r.statusCode = UNSUPPORTED_ROUTING_TABLE then
    RoutingError.unsupportedRoutingTable r.errorMessage
  else
    RoutingError.configureSystemProxyFailure r.errorMessage

/-- The `data` handler registered in `getSocket`, as the ordered list of
effects it performs: log the raw message, then switch on the parsed
`action`. The `configureRouting` case first checks
`!(this.fulfillStart && this.rejectStart)`; the `resetRouting` case calls
`fulfillStop` when set and always ends the socket; the `default` case only
logs an error. -/
def onData (s : ClientState) (r : RoutingServiceResponse) : List Effect :=
  Effect.logReceived ::
    (if r.action = CONFIGURE_ROUTING then
      if !(s.fulfillStartSet && s.rejectStartSet) then
        [Effect.logError "unexpected CONFIGURE_ROUTING response", Effect.socketEnd]
      else if r.statusCode = SUCCESS then
        [Effect.fulfillStart]
      else
        [Effect.rejectStart (rejectErrorOf r), Effect.socketEnd]
    else if r.action = RESET_ROUTING then
      (if s.fulfillStopSet then [Effect.fulfillStop] else []) ++ [Effect.socketEnd]
    else
      [Effect.logError "unexpected response type received from routing service"])

/-- The I/O actions `start` performs after its guard passes: acquiring a new
connection (`getSocket`) and writing the `configureRouting` request. -/
inductive StartEffect where
  | openConnection
  | writeRequest (action : String)
deriving DecidableEq

/-- `RoutingService.start`: if `this.socket` is set it throws
`already connected, please call stop first` before any I/O; otherwise it
acquires a socket, writes the `configureRouting` request, and arms the
`fulfillStart` / `rejectStart` callback pair. The result records the thrown
error or the performed I/O, paired with the updated instance state. -/
def start (s : ClientState) : Except String (List StartEffect) × ClientState :=
  if s.socketPresent then
    (Except.error "already connected, please call stop first", s)
  else
    (Except.ok [StartEffect.openConnection, StartEffect.writeRequest CONFIGURE_ROUTING],
      { s with socketPresent := true, fulfillStartSet := true, rejectStartSet := true })

/-- Events observable from a single delivery of a service message,
separating the synchronous handler effects from the deferred delivery of
promise settlements to awaiting code. -/
inductive TraceEvent where
  | eff (e : Effect)
  | resolveStartDelivered
  | rejectStartDelivered (e : RoutingError)
  | resolveStopDelivered
deriving DecidableEq

/-- The promise deliveries caused by a handler run: each invocation of a
stored resolve/reject callback schedules one delivery to the awaiting code,
and those deliveries run (in order) only after the synchronous handler
completes. -/
def promiseDeliveries (effs : List Effect) : List TraceEvent :=
  effs.filterMap fun e =>
    match e with
    | Effect.fulfillStart => some TraceEvent.resolveStartDelivered
    | Effect.rejectStart err => some (TraceEvent.rejectStartDelivered err)
    | Effect.fulfillStop => some TraceEvent.resolveStopDelivered
    | _ => none

/-- The full observable trace of one `data` event: the handler's synchronous
effects followed by the microtask deliveries of any promise settlements it
caused. -/
def dataEventTrace (s : ClientState) (r : RoutingServiceResponse) : List TraceEvent :=
  (onData s r).map TraceEvent.eff ++ promiseDeliveries (onData s r)

/-- Why the transport closed: the client called `end()`, the service closed
its side, or a transport-level error occurred. Node emits `close` in every
case (see the source comment above the `close` registration); the handler
never looks at the cause. -/
inductive CloseCause where
  | clientEnd
  | serviceEnd
  | transportError
deriving DecidableEq

/-- Socket-side state relevant to `close` delivery: whether the handler
registered with `newSocket.once('close', ...)` is still attached, and
whether `this.socket` still references this socket. -/
structure SocketState where
  closeHandlerRegistered : Bool
  socketStored : Bool
deriving DecidableEq

/-- The observable effects of the `close` handler, in program order:
log, `newSocket.removeAllListeners()`, `this.socket = undefined`, and the
conditional invocation of `this.disconnectionListener`. -/
inductive CloseEffect where
  | logDisconnected
  | removeAllListeners
  | clearSocket
  | invokeDisconnectionListener
deriving DecidableEq, BEq

/-- Delivery of one `close` event to the socket. Because the handler was
registered with `once`, it is detached before it runs; its body logs,
removes all listeners, clears the stored socket reference, and then invokes
the disconnect listener when one is set. A delivery after the handler is
detached does nothing. -/
def deliverClose (listenerSet : Bool) (st : SocketState) (_c : CloseCause) :
    SocketState × List CloseEffect :=
  if st.closeHandlerRegistered then
    ({ closeHandlerRegistered := false, socketStored := false },
      [CloseEffect.logDisconnected, CloseEffect.removeAllListeners, CloseEffect.clearSocket] ++
        (if listenerSet then [CloseEffect.invokeDisconnectionListener] else []))
  else
    (st, [])

/-- Delivery of a sequence of `close` events, accumulating effects in
order. -/
def runCloses (listenerSet : Bool) (st : SocketState) :
    List CloseCause → SocketState × List CloseEffect
  | [] => (st, [])
  | c :: cs =>
    let step := deliverClose listenerSet st c
    let rest := runCloses listenerSet step.1 cs
    (rest.1, step.2 ++ rest.2)

end RoutingTs

namespace ProcessesTs

/-- The two `ChildProcess` events `startInternal` listens for: `error`
(failure to launch) and `exit` (termination). -/
inductive ProcEvent where
  | spawnError
  | exited
deriving DecidableEq

/-- State of a `SingletonProcess` instance relevant to event delivery:
whether the `error` and `exit` registrations of `onExit` are still attached,
and whether `this.process` is set. -/
structure ProcState where
  errorHandlerRegistered : Bool
  exitHandlerRegistered : Bool
  processPresent : Bool
deriving DecidableEq

/-- The observable effects of `onExit`, in program order:
`this.process.removeAllListeners()`, `this.process = undefined` (both
guarded by `if (this.process)`), then the conditional invocation of
`this.exitListener`. -/
inductive ProcEffect where
  | removeAllListeners
  | clearProcess
  | invokeExitListener
deriving DecidableEq, BEq

/-- Whether the `onExit` handler is still registered for the given event. -/
def registeredFor (st : ProcState) : ProcEvent → Bool
  | ProcEvent.spawnError => st.errorHandlerRegistered
  | ProcEvent.exited => st.exitHandlerRegistered

/-- Delivery of one process event. If `onExit` is still registered for the
event it runs: when `this.process` is set it removes all listeners (both
registrations) and clears the handle, and in every case it then invokes the
exit listener when one is set. -/
def deliverProcEvent (listenerSet : Bool) (st : ProcState) (ev : ProcEvent) :
    ProcState × List ProcEffect :=
  if registeredFor st ev then
    if st.processPresent then
      ({ errorHandlerRegistered := false, exitHandlerRegistered := false,
         processPresent := false },
        [ProcEffect.removeAllListeners, ProcEffect.clearProcess] ++
          (if listenerSet then [ProcEffect.invokeExitListener] else []))
    else
      (st, if listenerSet then [ProcEffect.invokeExitListener] else [])
  else
    (st, [])

/-- Delivery of a sequence of process events, accumulating effects in
order. -/
def runProcEvents (listenerSet : Bool) (st : ProcState) :
    List ProcEvent → ProcState × List ProcEffect
  | [] => (st, [])
  | e :: es =>
    let step := deliverProcEvent listenerSet st e
    let rest := runProcEvents listenerSet step.1 es
    (rest.1, step.2 ++ rest.2)

/-- The instance state right after `startInternal` returns: `this.process`
set, `onExit` registered for both `error` and `exit`. -/
def startInternalState : ProcState :=
  { errorHandlerRegistered := true, exitHandlerRegistered := true, processPresent := true }

/-- The fields of `cordova.plugins.outline.ServerConfig` that `SsLocal.start`
reads; all are optional in the TypeScript declaration. -/
structure ServerConfig where
  host : Option String
  port : Option Nat
  password : Option String
  method : Option String

/-- JavaScript `x || ''` for an optional string: `undefined` (and the empty
string itself) yield the empty string. -/
def jsStringOrEmpty : Option String → String
  | none => ""
  | some s => s

/-- JavaScript `'' + x` for an optional number. -/
def jsNumberConcat : Option Nat → String
  | none => "undefined"
  | some n => toString n

/-- The argument list built by `SsLocal.start` from the instance's
`proxyPort` and the given server config. -/
def ssLocalArgs (proxyPort : Nat) (config : ServerConfig) : List String :=
  ["-l", toString proxyPort] ++
    ["-s", jsStringOrEmpty config.host] ++
    ["-p", jsNumberConcat config.port] ++
    ["-k", jsStringOrEmpty config.password] ++
    ["-m", jsStringOrEmpty config.method] ++
    ["-t", "5"] ++
    ["-u"]

/-- `TUN2SOCKS_TAP_DEVICE_NAME`: platform-dependent device name. -/
def TUN2SOCKS_TAP_DEVICE_NAME (isLinux : Bool) : String :=
  if isLinux then "outline-tun0" else "outline-tap0"

/-- `TUN2SOCKS_TAP_DEVICE_IP`. -/
def TUN2SOCKS_TAP_DEVICE_IP : String := "10.0.85.2"

/-- `TUN2SOCKS_VIRTUAL_ROUTER_IP`. -/
def TUN2SOCKS_VIRTUAL_ROUTER_IP : String := "10.0.85.1"

/-- `TUN2SOCKS_TAP_DEVICE_NETWORK`. -/
def TUN2SOCKS_TAP_DEVICE_NETWORK : String := "10.0.85.0"

/-- `TUN2SOCKS_VIRTUAL_ROUTER_NETMASK`. -/
def TUN2SOCKS_VIRTUAL_ROUTER_NETMASK : String := "255.255.255.0"

/-- The argument list built by `Tun2socks.start` from the instance's
`proxyAddress` and `proxyPort`, with the module-level `isLinux` platform
constant made an explicit parameter. -/
def tun2socksArgs (isLinux : Bool) (proxyAddress : String) (proxyPort : Nat) : List String :=
  ["--tundev",
    if isLinux then TUN2SOCKS_TAP_DEVICE_NAME isLinux
    else
      "tap0901:" ++ TUN2SOCKS_TAP_DEVICE_NAME isLinux ++ ":" ++ TUN2SOCKS_TAP_DEVICE_IP ++
        ":" ++ TUN2SOCKS_TAP_DEVICE_NETWORK ++ ":" ++ TUN2SOCKS_VIRTUAL_ROUTER_NETMASK] ++
    ["--netif-ipaddr", TUN2SOCKS_VIRTUAL_ROUTER_IP] ++
    ["--netif-netmask", TUN2SOCKS_VIRTUAL_ROUTER_NETMASK] ++
    ["--socks-server-addr", proxyAddress ++ ":" ++ toString proxyPort] ++
    ["--loglevel", "error"] ++
    ["--transparent-dns"] ++
    ["--socks5-udp"] ++
    ["--udp-relay-addr", proxyAddress ++ ":" ++ toString proxyPort]

end ProcessesTs

namespace RoutingTs

/-- C1: for every `configureRouting` response received while a Configure is
pending (both stored callbacks set), a success status (0) invokes
`fulfillStart` and performs no rejection; status 2 rejects with the
unsupported-routing-table error carrying the service-supplied message; any
other non-zero status rejects with the generic configure failure carrying
the message. The full effect lists show resolve and reject are exclusive. -/
theorem configure_response_dispatch (s : ClientState) (r : RoutingServiceResponse)
    (hf : s.fulfillStartSet = true) (hr : s.rejectStartSet = true)
    (ha : r.action = CONFIGURE_ROUTING) :
    (r.statusCode = SUCCESS →
      onData s r = [Effect.logReceived, Effect.fulfillStart]) ∧
    (r.statusCode = UNSUPPORTED_ROUTING_TABLE →
      onData s r =
        [Effect.logReceived,
          Effect.rejectStart (RoutingError.unsupportedRoutingTable r.errorMessage),
          Effect.socketEnd]) ∧
    (r.statusCode ≠ SUCCESS → r.statusCode ≠ UNSUPPORTED_ROUTING_TABLE →
      onData s r =
        [Effect.logReceived,
          Effect.rejectStart (RoutingError.configureSystemProxyFailure r.errorMessage),
          Effect.socketEnd]) := by
  refine ⟨fun h0 => ?_, fun h2 => ?_, fun h0 h2 => ?_⟩ <;>
    simp_all [onData, rejectErrorOf, SUCCESS, UNSUPPORTED_ROUTING_TABLE]

/-- Witness for C1: concrete responses with status 0, 2, and 7 while a
Configure is pending. -/
theorem configure_response_dispatch_witness :
    onData ⟨true, true, true, false, true⟩ ⟨CONFIGURE_ROUTING, 0, some "m"⟩ =
        [Effect.logReceived, Effect.fulfillStart] ∧
    onData ⟨true, true, true, false, true⟩ ⟨CONFIGURE_ROUTING, 2, some "m"⟩ =
        [Effect.logReceived,
          Effect.rejectStart (RoutingError.unsupportedRoutingTable (some "m")),
          Effect.socketEnd] ∧
    onData ⟨true, true, true, false, true⟩ ⟨CONFIGURE_ROUTING, 7, some "m"⟩ =
        [Effect.logReceived,
          Effect.rejectStart (RoutingError.configureSystemProxyFailure (some "m")),
          Effect.socketEnd] :=
  ⟨(configure_response_dispatch _ _ rfl rfl rfl).1 rfl,
    (configure_response_dispatch _ _ rfl rfl rfl).2.1 rfl,
    (configure_response_dispatch _ _ rfl rfl rfl).2.2 (by decide) (by decide)⟩

/-- C2: calling `start` while a stored socket exists throws the
`already connected` error, performs no I/O (no connection opened, nothing
written), and leaves the instance state unchanged. -/
theorem start_guard_already_connected (s : ClientState) (h : s.socketPresent = true) :
    start s = (Except.error "already connected, please call stop first", s) := by
  simp [start, h]

/-- Witness for C2: a concrete state holding a live socket. -/
theorem start_guard_already_connected_witness :
    start ⟨true, false, false, false, false⟩ =
      (Except.error "already connected, please call stop first",
        ⟨true, false, false, false, false⟩) :=
  start_guard_already_connected ⟨true, false, false, false, false⟩ rfl

/-- C3: every `resetRouting` response resolves the pending Reset future when
one exists (and never rejects anything), and the socket is ended immediately
after; the right-hand side never mentions the status code, so the outcome is
the same for every status. -/
theorem reset_response_resolves_then_closes (s : ClientState) (r : RoutingServiceResponse)
    (ha : r.action = RESET_ROUTING) :
    onData s r =
      Effect.logReceived ::
        ((if s.fulfillStopSet then [Effect.fulfillStop] else []) ++ [Effect.socketEnd]) := by
  simp [onData, ha, RESET_ROUTING, CONFIGURE_ROUTING]

/-- Witness for C3: a concrete `resetRouting` response with failure status 1
and an armed Reset callback still resolves and closes. -/
theorem reset_response_resolves_then_closes_witness :
    onData ⟨true, false, false, true, true⟩ ⟨RESET_ROUTING, 1, none⟩ =
      [Effect.logReceived, Effect.fulfillStop, Effect.socketEnd] := by
  simpa using
    reset_response_resolves_then_closes ⟨true, false, false, true, true⟩
      ⟨RESET_ROUTING, 1, none⟩ rfl

/-- C4 counterexample: a `statusChanged` message received while a Configure
is pending does NOT close the Connection — the default branch only logs, so
no `socketEnd` effect is performed, contradicting the claim that every
non-`configureRouting` message causes the Connection to be closed. -/
theorem unexpected_action_close_counterexample :
    Effect.socketEnd ∉ onData ⟨true, true, true, false, true⟩ ⟨STATUS_CHANGED, 0, none⟩ := by
  decide

/-- C4 (amended): while a Configure is pending, a `resetRouting` message
closes the Connection (resolving only a pending Reset, if armed) and leaves
the pending Configure future unsettled; any other message whose action is
not `configureRouting` (such as `statusChanged`) is only logged, leaving the
Connection open and the pending Configure future unsettled. -/
theorem unexpected_action_while_configure_pending (s : ClientState)
    (r : RoutingServiceResponse) (hf : s.fulfillStartSet = true)
    (hr : s.rejectStartSet = true) :
    (r.action = RESET_ROUTING →
      onData s r =
        Effect.logReceived ::
          ((if s.fulfillStopSet then [Effect.fulfillStop] else []) ++ [Effect.socketEnd])) ∧
    (r.action ≠ CONFIGURE_ROUTING → r.action ≠ RESET_ROUTING →
      onData s r =
        [Effect.logReceived,
          Effect.logError "unexpected response type received from routing service"]) := by
  constructor
  · intro ha
    simp [onData, ha, RESET_ROUTING, CONFIGURE_ROUTING]
  · intro h1 h2
    simp [onData, h1, h2]

/-- Witness for C4 (amended): a concrete `resetRouting` message and a
concrete `statusChanged` message, both while a Configure is pending. -/
theorem unexpected_action_while_configure_pending_witness :
    onData ⟨true, true, true, false, true⟩ ⟨RESET_ROUTING, 0, none⟩ =
        [Effect.logReceived, Effect.socketEnd] ∧
    onData ⟨true, true, true, false, true⟩ ⟨STATUS_CHANGED, 0, none⟩ =
        [Effect.logReceived,
          Effect.logError "unexpected response type received from routing service"] :=
  ⟨by
    simpa using
      (unexpected_action_while_configure_pending ⟨true, true, true, false, true⟩
        ⟨RESET_ROUTING, 0, none⟩ rfl rfl).1 rfl,
    (unexpected_action_while_configure_pending ⟨true, true, true, false, true⟩
      ⟨STATUS_CHANGED, 0, none⟩ rfl rfl).2 (by decide) (by decide)⟩

/-- C5: on a rejecting `configureRouting` response while a Configure is
pending, the full observable trace is: log, invoke the stored reject
callback, end the socket, and only then — after the synchronous handler
completes — deliver the rejection to the awaiting code. In particular the
transport close (position 2) strictly precedes the rejection delivery
(position 3). -/
theorem reject_socket_end_before_rejection_delivery (s : ClientState)
    (r : RoutingServiceResponse) (hf : s.fulfillStartSet = true)
    (hr : s.rejectStartSet = true) (ha : r.action = CONFIGURE_ROUTING)
    (hc : r.statusCode ≠ SUCCESS) :
    dataEventTrace s r =
      [TraceEvent.eff Effect.logReceived,
        TraceEvent.eff (Effect.rejectStart (rejectErrorOf r)),
        TraceEvent.eff Effect.socketEnd,
        TraceEvent.rejectStartDelivered (rejectErrorOf r)] ∧
    (dataEventTrace s r)[2]? = some (TraceEvent.eff Effect.socketEnd) ∧
    (dataEventTrace s r)[3]? = some (TraceEvent.rejectStartDelivered (rejectErrorOf r)) := by
  have honData :
      onData s r = [Effect.logReceived, Effect.rejectStart (rejectErrorOf r),
        Effect.socketEnd] := by
    simp [onData, ha, hf, hr, hc]
  refine ⟨?_, ?_, ?_⟩ <;> simp [dataEventTrace, honData, promiseDeliveries]

/-- Witness for C5: a concrete rejecting response (status 1) while a
Configure is pending. -/
theorem reject_socket_end_before_rejection_delivery_witness :
    dataEventTrace ⟨true, true, true, false, true⟩ ⟨CONFIGURE_ROUTING, 1, some "boom"⟩ =
      [TraceEvent.eff Effect.logReceived,
        TraceEvent.eff
          (Effect.rejectStart (RoutingError.configureSystemProxyFailure (some "boom"))),
        TraceEvent.eff Effect.socketEnd,
        TraceEvent.rejectStartDelivered
          (RoutingError.configureSystemProxyFailure (some "boom"))] := by
  simpa [rejectErrorOf, UNSUPPORTED_ROUTING_TABLE] using
    (reject_socket_end_before_rejection_delivery ⟨true, true, true, false, true⟩
      ⟨CONFIGURE_ROUTING, 1, some "boom"⟩ rfl rfl rfl (by decide)).1

/-- C10: a `configureRouting` response arriving when both Configure
callbacks are unset is logged as unexpected and the socket is ended; the
right-hand side never mentions the status code and no stored callback is
invoked. -/
theorem unsolicited_configure_response (s : ClientState) (r : RoutingServiceResponse)
    (hf : s.fulfillStartSet = false) (hr : s.rejectStartSet = false)
    (ha : r.action = CONFIGURE_ROUTING) :
    onData s r =
      [Effect.logReceived, Effect.logError "unexpected CONFIGURE_ROUTING response",
        Effect.socketEnd] := by
  simp [onData, ha, hf, hr]

/-- Witness for C10: a concrete success-status response with no pending
Configure. -/
theorem unsolicited_configure_response_witness :
    onData ⟨true, false, false, false, false⟩ ⟨CONFIGURE_ROUTING, 0, some "x"⟩ =
      [Effect.logReceived, Effect.logError "unexpected CONFIGURE_ROUTING response",
        Effect.socketEnd] :=
  unsolicited_configure_response ⟨true, false, false, false, false⟩
    ⟨CONFIGURE_ROUTING, 0, some "x"⟩ rfl rfl rfl

end RoutingTs

namespace RoutingTs

/-- Once the close handler registered with `once` has been detached, further
close events have no observable effect and leave the state unchanged. -/
theorem runCloses_detached (listenerSet : Bool) (st : SocketState)
    (h : st.closeHandlerRegistered = false) (cs : List CloseCause) :
    runCloses listenerSet st cs = (st, []) := by
  induction cs with
  | nil => rfl
  | cons c cs ih => simp [runCloses, deliverClose, h, ih]

/-- C6: starting from a freshly stored Connection with the close handler
registered and a disconnect listener set, any non-empty sequence of
transport close events — whatever their causes — produces exactly one
invocation of the disconnect listener, with the stored socket reference
cleared (position 2) strictly before the listener runs (position 3), and
leaves the handler detached and the reference cleared. -/
theorem disconnection_listener_fires_exactly_once (cs : List CloseCause) (hne : cs ≠ []) :
    (runCloses true ⟨true, true⟩ cs).2 =
      [CloseEffect.logDisconnected, CloseEffect.removeAllListeners, CloseEffect.clearSocket,
        CloseEffect.invokeDisconnectionListener] ∧
    (runCloses true ⟨true, true⟩ cs).2.count CloseEffect.invokeDisconnectionListener = 1 ∧
    (runCloses true ⟨true, true⟩ cs).2.indexOf CloseEffect.clearSocket <
      (runCloses true ⟨true, true⟩ cs).2.indexOf CloseEffect.invokeDisconnectionListener ∧
    (runCloses true ⟨true, true⟩ cs).1 = ⟨false, false⟩ := by
  obtain ⟨c, cs', rfl⟩ := List.exists_cons_of_ne_nil hne
  have h2 : runCloses true ⟨false, false⟩ cs' = (⟨false, false⟩, []) :=
    runCloses_detached true ⟨false, false⟩ rfl cs'
  refine ⟨?_, ?_, ?_, ?_⟩ <;> simp [runCloses, deliverClose, h2] <;> decide

/-- Witness for C6: a single transport-error-caused close event. -/
theorem disconnection_listener_fires_exactly_once_witness :
    (runCloses true ⟨true, true⟩ [CloseCause.transportError]).2 =
      [CloseEffect.logDisconnected, CloseEffect.removeAllListeners, CloseEffect.clearSocket,
        CloseEffect.invokeDisconnectionListener] :=
  (disconnection_listener_fires_exactly_once [CloseCause.transportError] (by decide)).1

end RoutingTs

namespace ProcessesTs

/-- Once `removeAllListeners` has detached both `onExit` registrations,
further process events have no observable effect and leave the state
unchanged. -/
theorem runProcEvents_detached (listenerSet : Bool) (st : ProcState)
    (he : st.errorHandlerRegistered = false) (hx : st.exitHandlerRegistered = false)
    (evs : List ProcEvent) :
    runProcEvents listenerSet st evs = (st, []) := by
  induction evs with
  | nil => rfl
  | cons e es ih =>
    cases e <;> simp [runProcEvents, deliverProcEvent, registeredFor, he, hx, ih]

/-- C7: starting from the state left by `startInternal` with an exit
listener set, any non-empty sequence of `error` / `exit` events — in any
order — produces exactly one exit notification: whichever event arrives
first triggers it, the other cannot trigger it again, the process handle is
cleared (position 1) strictly before the listener is invoked (position 2),
and the final state has no stored handle, so a subsequent start is legal. -/
theorem exit_notification_fires_exactly_once (evs : List ProcEvent) (hne : evs ≠ []) :
    (runProcEvents true startInternalState evs).2 =
      [ProcEffect.removeAllListeners, ProcEffect.clearProcess,
        ProcEffect.invokeExitListener] ∧
    (runProcEvents true startInternalState evs).2.count ProcEffect.invokeExitListener = 1 ∧
    (runProcEvents true startInternalState evs).2.indexOf ProcEffect.clearProcess <
      (runProcEvents true startInternalState evs).2.indexOf ProcEffect.invokeExitListener ∧
    (runProcEvents true startInternalState evs).1.processPresent = false := by
  obtain ⟨e, es, rfl⟩ := List.exists_cons_of_ne_nil hne
  have h2 : runProcEvents true ⟨false, false, false⟩ es = (⟨false, false, false⟩, []) :=
    runProcEvents_detached true ⟨false, false, false⟩ rfl rfl es
  cases e <;> refine ⟨?_, ?_, ?_, ?_⟩ <;>
    simp [runProcEvents, deliverProcEvent, registeredFor, startInternalState, h2] <;> decide

/-- Witness for C7: the stop-then-exit scenario — the OS reports `exit`
after the kill, and a stray later `error` event cannot fire again. -/
theorem exit_notification_fires_exactly_once_witness :
    (runProcEvents true startInternalState [ProcEvent.exited, ProcEvent.spawnError]).2 =
      [ProcEffect.removeAllListeners, ProcEffect.clearProcess,
        ProcEffect.invokeExitListener] :=
  (exit_notification_fires_exactly_once [ProcEvent.exited, ProcEvent.spawnError]
    (by decide)).1

/-- C8: an `SsLocal` supervisor with local proxy port 1081, started with
host 203.0.113.5, port 65336, password pw and method aes-128-cfb, produces
exactly the claimed argument list: local bind port 1081, remote
203.0.113.5:65336, cipher aes-128-cfb, fixed timeout 5, and the UDP-relay
flag. -/
theorem ssLocal_start_args :
    ssLocalArgs 1081
        { host := some "203.0.113.5", port := some 65336, password := some "pw",
          method := some "aes-128-cfb" } =
      ["-l", "1081", "-s", "203.0.113.5", "-p", "65336", "-k", "pw", "-m", "aes-128-cfb",
        "-t", "5", "-u"] := by
  rfl

/-- C9: a `Tun2socks` supervisor with proxy address 127.0.0.1 and proxy port
1081 produces, on each platform, exactly the listed arguments — containing
the pairs netif-ipaddr 10.0.85.1, netif-netmask 255.255.255.0,
socks-server-addr 127.0.0.1:1081 and udp-relay-addr 127.0.0.1:1081, the
transparent-DNS and SOCKS5-UDP flags, and the platform-dependent device
value: the bare device name on Linux, the full tap spec elsewhere. -/
theorem tun2socks_start_args :
    tun2socksArgs true "127.0.0.1" 1081 =
      ["--tundev", "outline-tun0", "--netif-ipaddr", "10.0.85.1", "--netif-netmask",
        "255.255.255.0", "--socks-server-addr", "127.0.0.1:1081", "--loglevel", "error",
        "--transparent-dns", "--socks5-udp", "--udp-relay-addr", "127.0.0.1:1081"] ∧
    tun2socksArgs false "127.0.0.1" 1081 =
      ["--tundev", "tap0901:outline-tap0:10.0.85.2:10.0.85.0:255.255.255.0",
        "--netif-ipaddr", "10.0.85.1", "--netif-netmask", "255.255.255.0",
        "--socks-server-addr", "127.0.0.1:1081", "--loglevel", "error",
        "--transparent-dns", "--socks5-udp", "--udp-relay-addr", "127.0.0.1:1081"] :=
  ⟨rfl, rfl⟩

end ProcessesTs
